import Mathlib

/-!
Verification of the Order Ledger Service
(`src/LAB_1_PROCUREMENT_AGENT/BE/app.py` and its near-duplicate
`src/LAB_1_PROCUREMENT_AGENT/backup/BE_google_sheet/app.py`).

The service is shallowly embedded:

* Spreadsheet cell values are `Cell` (a string or a number).  The spreadsheet
  client returns numeric-looking cells as numbers and the rest as strings.
* Prices are modelled as exact rationals (`ℚ`).  Python `float` rounding is
  not modelled; the claims under study concern which value is selected and
  compared, not binary rounding.
* Python's `str(<float>)` rendering is taken as a parameter
  `fstr : ℚ → String` of each operation.
* A fetched record (one element of `sheet.get_all_records()`) is a `RawRow`
  whose fields are `Option`s: `none` models a key that is absent from the
  sheet's header row.  Text fields are modelled as strings (a non-string
  `product_name` cell would raise inside the handler before any delta is
  computed; that input is outside this model).
* The remote store is modelled by explicit state passing: each operation
  receives the current ledger (the list of fetched records) and returns the
  new ledger.  Store failures are injected through a fault parameter; the
  Python `except Exception` branch corresponds to the fault cases.
-/

/-- A spreadsheet cell value as returned by `sheet.get_all_records()`:
either a text cell or a numeric cell. -/
inductive Cell where
  | str (s : String)
  | num (q : ℚ)
deriving DecidableEq

/-- Value of a run of decimal digit characters. -/
def digitsToNat (ds : List Char) : ℕ :=
  ds.foldl (fun a c => 10 * a + (c.toNat - 48)) 0

/-- Exponent part of Python's `float(<str>)` grammar: an optional sign
followed by digits, ending the string. -/
def parseExp (sign mant : ℚ) (cs : List Char) : Option ℚ :=
  let signAndRest : ℤ × List Char :=
    match cs with
    | '-' :: rest => (-1, rest)
    | '+' :: rest => (1, rest)
    | _ => (1, cs)
  let ds := signAndRest.2.takeWhile Char.isDigit
  let rest := signAndRest.2.dropWhile Char.isDigit
  if ds.isEmpty || !rest.isEmpty then none
  else some (sign * mant * (10 : ℚ) ^ (signAndRest.1 * (digitsToNat ds : ℤ)))

/-- Python's `str.strip()` on a character list: drop leading and trailing
whitespace. -/
def pyStrip (cs : List Char) : List Char :=
  ((cs.dropWhile Char.isWhitespace).reverse.dropWhile Char.isWhitespace).reverse

/-- Python's `float(<str>)`: surrounding whitespace is stripped, then an
optional sign, digits with an optional fractional part, and an optional
exponent are read; anything else raises (`none` here).  The special forms
`inf`/`nan` and digit-group underscores are not modelled; no claim under
study involves them. -/
def pyParseFloat (s : String) : Option ℚ :=
  let cs := pyStrip s.toList
  let signAndRest : ℚ × List Char :=
    match cs with
    | '-' :: rest => (-1, rest)
    | '+' :: rest => (1, rest)
    | _ => (1, cs)
  let sign := signAndRest.1
  let cs1 := signAndRest.2
  let ip := cs1.takeWhile Char.isDigit
  let cs2 := cs1.dropWhile Char.isDigit
  let fpAndRest : List Char × List Char :=
    match cs2 with
    | '.' :: rest => (rest.takeWhile Char.isDigit, rest.dropWhile Char.isDigit)
    | _ => ([], cs2)
  let fp := fpAndRest.1
  let cs3 := fpAndRest.2
  if ip.isEmpty && fp.isEmpty then none
  else
    let mant : ℚ := (digitsToNat ip : ℚ) + (digitsToNat fp : ℚ) / ((10 : ℚ) ^ fp.length)
    match cs3 with
    | [] => some (sign * mant)
    | 'e' :: rest => parseExp sign mant rest
    | 'E' :: rest => parseExp sign mant rest
    | _ => none

/-- Python's `float(x)` on a cell value: a numeric cell is returned as is,
a text cell goes through the string grammar. -/
def pyFloat : Cell → Option ℚ
  | Cell.num q => some q
  | Cell.str s => pyParseFloat s

/-- Python's `.strip().lower()` normalization (ASCII case folding). -/
def pyNorm (s : String) : String :=
  String.mk ((pyStrip s.toList).map Char.toLower)

/-- One record returned by `sheet.get_all_records()`.  A `none` field models
a key absent from the sheet header (so `row.get(key, default)` falls back to
its default). -/
structure RawRow where
  product_name : Option String := none
  supplier : Option String := none
  price : Option Cell := none
  quantity : Option Cell := none
  purchase_date : Option String := none
  staff_in_charge : Option String := none
  approver : Option String := none
  latest_price_change : Option Cell := none
deriving DecidableEq

/-- The matching test of the scan loop:
`row.get("product_name", "").strip().lower() == order.product_name.strip().lower()`. -/
def rowMatches (reqName : String) (row : RawRow) : Bool :=
  pyNorm (row.product_name.getD "") == pyNorm reqName

/-- One iteration of the scan loop in `add_order`: on a matching row,
`previous_price` is set to `float(row.get("price", 0))` when that parses and
reset to `None` when it raises; a non-matching row leaves it unchanged. -/
def prevStep (reqName : String) (previous_price : Option ℚ) (row : RawRow) : Option ℚ :=
  if rowMatches reqName row then pyFloat (row.price.getD (Cell.num 0))
  else previous_price

/-- The scan of `add_order` over all fetched records, starting from
`previous_price = None`. -/
def previousPrice (reqName : String) (rows : List RawRow) : Option ℚ :=
  rows.foldl (prevStep reqName) none

/-- The request body of `POST /orders` (`OrderRequest`). -/
structure OrderRequest where
  product_name : String
  supplier : String
  price : ℚ
  quantity : ℤ
  purchase_date : String
  staff_in_charge : String
  approver : String
deriving DecidableEq

/-- The success body of `POST /orders` in the main copy (`OrderResponse`). -/
structure OrderResponse where
  message : String
  latest_price_change : String
deriving DecidableEq

/-- Outcome of `add_order` in the main copy: a success body, or the
`JSONResponse(status_code=500, content={"detail": d})` taken in the
`except` branch (`err500 d` carries that `detail` string). -/
inductive AddResult where
  | ok (resp : OrderResponse)
  | err500 (detail : String)
deriving DecidableEq

/-- The literal eight-element list passed to `sheet.append_row`. -/
def appendPayload (order : OrderRequest) (latest_price_change : String) : List Cell :=
  [Cell.str order.product_name,
   Cell.str order.supplier,
   Cell.num order.price,
   Cell.num (order.quantity : ℚ),
   Cell.str order.purchase_date,
   Cell.str order.staff_in_charge,
   Cell.str order.approver,
   Cell.str latest_price_change]

/-- Text content of a cell, if it is a text cell. -/
def cellText : Cell → Option String
  | Cell.str s => some s
  | Cell.num _ => none

/-- The record that `get_all_records()` returns for an appended payload row,
under the canonical eight-column header (product_name, supplier, price,
quantity, purchase_date, staff_in_charge, approver, latest_price_change). -/
def recordOfPayload (cells : List Cell) : RawRow where
  product_name := (cells[0]?).bind cellText
  supplier := (cells[1]?).bind cellText
  price := cells[2]?
  quantity := cells[3]?
  purchase_date := (cells[4]?).bind cellText
  staff_in_charge := (cells[5]?).bind cellText
  approver := (cells[6]?).bind cellText
  latest_price_change := cells[7]?

/-- Fault injection for the store interaction of `add_order`:
`fetchErr m` - `get_gsheet()`/`get_all_records()` raises with message `m`;
`appendErr m` - the fetch succeeds but `append_row` raises with message `m`;
`ok` - both store calls succeed. -/
inductive StoreFault where
  | ok
  | fetchErr (m : String)
  | appendErr (m : String)
deriving DecidableEq

/-- `add_order` of `src/LAB_1_PROCUREMENT_AGENT/BE/app.py`, embedded over an
explicit ledger state.  Returns the HTTP outcome and the new ledger. -/
def add_order (fstr : ℚ → String) (fault : StoreFault) (rows : List RawRow)
    (order : OrderRequest) : AddResult × List RawRow :=
  match fault with
  | StoreFault.fetchErr m =>
      (AddResult.err500 ("Error accessing Google Sheet: " ++ m), rows)
  | StoreFault.appendErr m =>
      (AddResult.err500 ("Error accessing Google Sheet: " ++ m), rows)
  | StoreFault.ok =>
      let previous_price := previousPrice order.product_name rows
      let latest_price_change :=
        match previous_price with
        | some p =>
            let price_change := order.price - p
            if price_change ≠ 0 then fstr price_change else "-"
        | none => "-"
      (AddResult.ok { message := "Order added successfully",
                      latest_price_change := latest_price_change },
       rows ++ [recordOfPayload (appendPayload order latest_price_change)])

/-- The success body of `POST /orders` in the backup copy
(`OrderResponse` of `backup/BE_google_sheet/app.py`): the minimal body plus
an echo of every submitted field. -/
structure OrderResponseB where
  message : String
  product_name : String
  supplier : String
  price : ℚ
  quantity : ℤ
  purchase_date : String
  staff_in_charge : String
  approver : String
  latest_price_change : String
deriving DecidableEq

/-- Outcome of `add_order` in the backup copy. -/
inductive AddResultB where
  | ok (resp : OrderResponseB)
  | err500 (detail : String)
deriving DecidableEq

/-- `add_order` of `src/LAB_1_PROCUREMENT_AGENT/backup/BE_google_sheet/app.py`:
the scan, delta computation and append are textually identical to the main
copy; only the success body differs (it echoes the submitted fields). -/
def add_order_backup (fstr : ℚ → String) (fault : StoreFault) (rows : List RawRow)
    (order : OrderRequest) : AddResultB × List RawRow :=
  match fault with
  | StoreFault.fetchErr m =>
      (AddResultB.err500 ("Error accessing Google Sheet: " ++ m), rows)
  | StoreFault.appendErr m =>
      (AddResultB.err500 ("Error accessing Google Sheet: " ++ m), rows)
  | StoreFault.ok =>
      let previous_price := previousPrice order.product_name rows
      let latest_price_change :=
        match previous_price with
        | some p =>
            let price_change := order.price - p
            if price_change ≠ 0 then fstr price_change else "-"
        | none => "-"
      (AddResultB.ok { message := "Order added successfully",
                       product_name := order.product_name,
                       supplier := order.supplier,
                       price := order.price,
                       quantity := order.quantity,
                       purchase_date := order.purchase_date,
                       staff_in_charge := order.staff_in_charge,
                       approver := order.approver,
                       latest_price_change := latest_price_change },
       rows ++ [recordOfPayload (appendPayload order latest_price_change)])

/-- One element of the `GET /orders` response (`OrderHistoryItem`). -/
structure OrderHistoryItem where
  product_name : String
  supplier : String
  price : ℚ
  quantity : ℤ
  purchase_date : String
  staff_in_charge : String
  approver : String
  latest_price_change : String
deriving DecidableEq

/-- Integer coercion of a cell for the `quantity: int` field (pydantic lax
mode: an integral number, or a string parsing to an integral number). -/
def cellInt (c : Cell) : Option ℤ :=
  match c with
  | Cell.num q => if q.den = 1 then some q.num else none
  | Cell.str s =>
      (pyParseFloat s).bind (fun q => if q.den = 1 then some q.num else none)

/-- The in-place coercion `row["latest_price_change"] = str(row["latest_price_change"])`
performed by `get_order_history` before validation (`str` on a string is the
identity; on a number it is the `fstr` rendering). -/
def coerceLpc (fstr : ℚ → String) (row : RawRow) : RawRow :=
  match row.latest_price_change with
  | some (Cell.num q) => { row with latest_price_change := some (Cell.str (fstr q)) }
  | some (Cell.str s) => { row with latest_price_change := some (Cell.str s) }
  | none => row

/-- Validation of a fetched record by `OrderHistoryItem(**row)`: every
required field must be present and coerce to its declared type; a missing
`latest_price_change` takes the default `"-"`.  A failure (`none`) models
the pydantic `ValidationError` caught by the per-row `try`. -/
def validateItem (row : RawRow) : Option OrderHistoryItem :=
  match row.product_name, row.supplier, row.price, row.quantity,
        row.purchase_date, row.staff_in_charge, row.approver with
  | some pn, some sup, some pc, some qc, some pd, some st, some ap =>
      match pyFloat pc, cellInt qc with
      | some price, some qty =>
          match row.latest_price_change with
          | none => some ⟨pn, sup, price, qty, pd, st, ap, "-"⟩
          | some (Cell.str s) => some ⟨pn, sup, price, qty, pd, st, ap, s⟩
          | some (Cell.num _) => none
      | _, _ => none
  | _, _, _, _, _, _, _ => none

/-- Outcome of `get_order_history`: the success body `{orders: [...]}`, or
the 500 `{"detail": d}` body taken in the `except` branch. -/
inductive HistResult where
  | ok (orders : List OrderHistoryItem)
  | err500 (detail : String)
deriving DecidableEq

/-- `get_order_history` of `src/LAB_1_PROCUREMENT_AGENT/BE/app.py` (the
backup copy is textually identical).  The fetch fault is `some m` when the
store access raises with message `m`.  The ledger is returned unchanged:
the handler never writes to the store. -/
def get_order_history (fstr : ℚ → String) (fetchFault : Option String)
    (rows : List RawRow) : HistResult × List RawRow :=
  match fetchFault with
  | some m => (HistResult.err500 ("Error accessing Google Sheet: " ++ m), rows)
  | none =>
      let orders := rows.foldl
        (fun acc row =>
          match validateItem (coerceLpc fstr row) with
          | some item => acc ++ [item]
          | none => acc)
        []
      (HistResult.ok orders, rows)

/-- Sequential application of `add_order` (no store faults): each call's
appended row is visible to the next call's scan. -/
def runCreates (fstr : ℚ → String) : List OrderRequest → List RawRow → List AddResult
  | [], _ => []
  | order :: rest, rows =>
      (add_order fstr StoreFault.ok rows order).1 ::
        runCreates fstr rest (add_order fstr StoreFault.ok rows order).2

/-- The scan as claim C1 describes it (written from the claim's words, for
comparison with `previousPrice`): a matching row whose price fails to parse
is treated as having no usable price for that row only, keeping the price
retained from an earlier matching row. -/
def previousPriceClaimed (reqName : String) (rows : List RawRow) : Option ℚ :=
  rows.foldl
    (fun acc row =>
      if rowMatches reqName row then
        match pyFloat (row.price.getD (Cell.num 0)) with
        | some p => some p
        | none => acc
      else acc)
    none

/-- The `latest_price_change` carried by a successful `add_order` outcome. -/
def lpcOf : AddResult → Option String
  | AddResult.ok resp => some resp.latest_price_change
  | AddResult.err500 _ => none

/-- A concrete number-rendering function used to instantiate `fstr` in
witnesses: it is constant, which makes its side conditions decidable. -/
def constStr : ℚ → String := fun _ => "x"

/-- A fetched row for product `Widget` whose price cell is the number `10`. -/
def exRowA : RawRow := { product_name := some "Widget", price := some (Cell.num 10) }

/-- A fetched row for product `Widget` whose price cell fails to parse. -/
def exRowB : RawRow := { product_name := some "Widget", price := some (Cell.str "oops") }

/-- A concrete create request for product `Widget` at price `15`. -/
def exReq : OrderRequest :=
  { product_name := "Widget", supplier := "Acme", price := 15, quantity := 2,
    purchase_date := "2024-01-05", staff_in_charge := "Ann", approver := "Bob" }

/-- A concrete create request with price `1` (first call of a sequence). -/
def exReqA : OrderRequest := { exReq with price := 1 }

/-- A concrete create request with price `2` (second call of a sequence). -/
def exReqB : OrderRequest := { exReq with price := 2 }

/-- A fetched row for product `Widget` with no price field at all (the sheet
header has no `price` column). -/
def exRowNoPrice : RawRow := { product_name := some "Widget" }

/-- The constant rendering never collides with the sentinel. -/
theorem constStr_ne (q : ℚ) : constStr q ≠ "-" := by simp [constStr]

/-- Folding the scan step from any start value yields the parse result of
the last matching row, or the start value when no row matches. -/
theorem foldl_prevStep (reqName : String) (rows : List RawRow) (acc : Option ℚ) :
    rows.foldl (prevStep reqName) acc =
      match (rows.filter (rowMatches reqName)).getLast? with
      | some row => pyFloat (row.price.getD (Cell.num 0))
      | none => acc := by
  induction rows generalizing acc with
  | nil => rfl
  | cons r rest ih =>
    rw [List.foldl_cons, ih]
    cases h : rowMatches reqName r with
    | true =>
      cases hfr : rest.filter (rowMatches reqName) with
      | nil => simp [List.filter_cons, h, hfr, prevStep]
      | cons b l =>
        have hne : (b :: l).getLast? ≠ none := List.getLast?_eq_none_iff.not.mpr (by simp)
        cases hgl : (b :: l).getLast? with
        | none => exact absurd hgl hne
        | some x =>
          simp [List.filter_cons, h, hfr, prevStep, List.getLast?_cons_cons, hgl]
    | false => simp [List.filter_cons, h, prevStep]

/-- The scan over a ledger extended by one appended row is decided by that
row when it matches, and is unchanged by it otherwise. -/
theorem previousPrice_snoc (reqName : String) (rows : List RawRow) (row : RawRow) :
    previousPrice reqName (rows ++ [row]) =
      if rowMatches reqName row then pyFloat (row.price.getD (Cell.num 0))
      else previousPrice reqName rows := by
  rw [previousPrice, List.foldl_append]
  rfl

/-- The record the store returns for the payload appended by `add_order`. -/
theorem recordOfPayload_appendPayload (order : OrderRequest) (lpc : String) :
    recordOfPayload (appendPayload order lpc) =
      { product_name := some order.product_name, supplier := some order.supplier,
        price := some (Cell.num order.price), quantity := some (Cell.num (order.quantity : ℚ)),
        purchase_date := some order.purchase_date,
        staff_in_charge := some order.staff_in_charge, approver := some order.approver,
        latest_price_change := some (Cell.str lpc) } := rfl

/-- A row appended by `add_order` for request `a` is seen by a later scan
for the same normalized product name as a matching row with price `a.price`. -/
theorem previousPrice_after_append (reqName : String) (rows : List RawRow)
    (a : OrderRequest) (lpc : String) (hname : pyNorm a.product_name = pyNorm reqName) :
    previousPrice reqName (rows ++ [recordOfPayload (appendPayload a lpc)]) = some a.price := by
  rw [previousPrice_snoc]
  have hm : rowMatches reqName (recordOfPayload (appendPayload a lpc)) = true := by
    simp [rowMatches, recordOfPayload, appendPayload, cellText, hname]
  rw [if_pos hm]
  rfl

/-- When the scan retains price `p` and the submitted price differs,
`add_order` answers with the rendered delta. -/
theorem add_order_delta (fstr : ℚ → String) (rows : List RawRow) (b : OrderRequest)
    (p : ℚ) (hprev : previousPrice b.product_name rows = some p) (hne : b.price ≠ p) :
    (add_order fstr StoreFault.ok rows b).1 =
      AddResult.ok { message := "Order added successfully",
                     latest_price_change := fstr (b.price - p) } := by
  simp [add_order, hprev, sub_ne_zero.mpr hne]

/-- The new ledger after a successful `add_order` is the old one plus the
record of the appended payload. -/
theorem add_order_snd (fstr : ℚ → String) (rows : List RawRow) (a : OrderRequest) :
    ∃ lpc, (add_order fstr StoreFault.ok rows a).2 =
      rows ++ [recordOfPayload (appendPayload a lpc)] := ⟨_, rfl⟩

/-- C1 (counterexample): with fetched rows for `Widget` at price `10` and
then with an unparsable price, and a create request for `Widget` at `15`,
the code retains no previous price (the later parse failure discards the
earlier `10`) and answers `"-"`, while the claim's skip-on-failure scan
retains `10` — and `15 ≠ 10`, so the claim would demand a nonzero rendered
delta instead of `"-"`. -/
theorem c1_counterexample :
    previousPrice "Widget" [exRowA, exRowB] = none
    ∧ previousPriceClaimed "Widget" [exRowA, exRowB] = some 10
    ∧ (add_order constStr StoreFault.ok [exRowA, exRowB] exReq).1 =
        AddResult.ok { message := "Order added successfully", latest_price_change := "-" }
    ∧ exReq.price ≠ 10 := by decide

/-- C1 (amended): the previous price used for the delta is the parse result
of the price of the last matching row, in iteration order: `none` when no
row matches, and also `none` when the last matching row's price fails to
parse — a late parse failure discards any parsable price retained from an
earlier matching row. -/
theorem c1_amended (reqName : String) (rows : List RawRow) :
    previousPrice reqName rows =
      ((rows.filter (rowMatches reqName)).getLast?).bind
        (fun row => pyFloat (row.price.getD (Cell.num 0))) := by
  rw [previousPrice, foldl_prevStep]
  cases (rows.filter (rowMatches reqName)).getLast? <;> rfl

/-- C2 (counterexample): the response carries the sentinel `"-"` although a
matching fetched row has the parsable price `10` and the submitted price
`15` differs from it, so neither arm of the claim's "exactly when" holds. -/
theorem c2_counterexample :
    (add_order constStr StoreFault.ok [exRowA, exRowB] exReq).1 =
      AddResult.ok { message := "Order added successfully", latest_price_change := "-" }
    ∧ (∃ row ∈ [exRowA, exRowB], rowMatches exReq.product_name row = true
        ∧ pyFloat (row.price.getD (Cell.num 0)) = some 10)
    ∧ exReq.price ≠ 10 := by decide

/-- C2 (amended): `latest_price_change` is `"-"` exactly when the scan
retains no price (no matching row, or the last matching row's price fails
to parse) or the retained price equals the submitted price; otherwise it is
the rendering of the submitted price minus the retained price. -/
theorem c2_amended (fstr : ℚ → String) (hf : ∀ q, fstr q ≠ "-")
    (rows : List RawRow) (order : OrderRequest) :
    ((add_order fstr StoreFault.ok rows order).1 =
        AddResult.ok { message := "Order added successfully", latest_price_change := "-" }
      ↔ previousPrice order.product_name rows = none
        ∨ previousPrice order.product_name rows = some order.price)
    ∧ (∀ p, previousPrice order.product_name rows = some p → p ≠ order.price →
        (add_order fstr StoreFault.ok rows order).1 =
          AddResult.ok { message := "Order added successfully",
                         latest_price_change := fstr (order.price - p) }) := by
  constructor
  · cases hp : previousPrice order.product_name rows with
    | none => simp [add_order, hp]
    | some p =>
      rcases eq_or_ne order.price p with he | hne
      · simp [add_order, hp, he]
      · have hsub : order.price - p ≠ 0 := sub_ne_zero.mpr hne
        simp [add_order, hp, hsub, hf (order.price - p), hne.symm]
  · intro p hp hne
    exact add_order_delta fstr rows order p hp (fun h => hne (h.symm ▸ rfl))

/-- C2 witness: the amended statement at a store holding one `Widget` row at
price `10` and the concrete request for `Widget` at `15`. -/
theorem c2_amended_witness :
    (((add_order constStr StoreFault.ok [exRowA] exReq).1 =
        AddResult.ok { message := "Order added successfully", latest_price_change := "-" })
      ↔ previousPrice exReq.product_name [exRowA] = none
        ∨ previousPrice exReq.product_name [exRowA] = some exReq.price)
    ∧ (∀ p, previousPrice exReq.product_name [exRowA] = some p → p ≠ exReq.price →
        (add_order constStr StoreFault.ok [exRowA] exReq).1 =
          AddResult.ok { message := "Order added successfully",
                         latest_price_change := constStr (exReq.price - p) }) :=
  c2_amended constStr constStr_ne [exRowA] exReq

/-- C3 (confirmed): in a sequence of successful creates for the same
product name with strictly increasing prices, each call after the first
answers with the rendered positive difference from the immediately
preceding call's price. -/
theorem c3_strictly_increasing (fstr : ℚ → String) (reqs : List OrderRequest) (n : String)
    (hn : ∀ r ∈ reqs, r.product_name = n)
    (hinc : (reqs.map OrderRequest.price).Chain' (· < ·))
    (rows : List RawRow) (i : ℕ) (a b : OrderRequest)
    (ha : reqs[i]? = some a) (hb : reqs[i + 1]? = some b) :
    0 < b.price - a.price
    ∧ (runCreates fstr reqs rows)[i + 1]? =
        some (AddResult.ok { message := "Order added successfully",
                             latest_price_change := fstr (b.price - a.price) }) := by
  induction reqs generalizing rows i with
  | nil => simp at ha
  | cons r rest ih =>
    cases i with
    | zero =>
      rw [List.getElem?_cons_zero, Option.some.injEq] at ha
      subst ha
      cases rest with
      | nil => simp at hb
      | cons b0 rest2 =>
        rw [List.getElem?_cons_succ, List.getElem?_cons_zero, Option.some.injEq] at hb
        subst hb
        have hlt : r.price < b0.price := by
          rw [List.map_cons, List.map_cons, List.chain'_cons] at hinc
          exact hinc.1
        have hne : b0.price ≠ r.price := ne_of_gt hlt
        refine ⟨sub_pos.mpr hlt, ?_⟩
        obtain ⟨lpc, hL⟩ := add_order_snd fstr rows r
        have hname : pyNorm r.product_name = pyNorm b0.product_name := by
          rw [hn r (by simp), hn b0 (by simp)]
        have hprev : previousPrice b0.product_name (add_order fstr StoreFault.ok rows r).2
            = some r.price := by
          rw [hL]
          exact previousPrice_after_append b0.product_name rows r lpc hname
        have hres := add_order_delta fstr (add_order fstr StoreFault.ok rows r).2 b0
          r.price hprev hne
        simp [runCreates, hres]
    | succ j =>
      rw [List.getElem?_cons_succ] at ha hb
      have hn2 : ∀ x ∈ rest, x.product_name = n := fun x hx => hn x (List.mem_cons_of_mem r hx)
      have hinc2 : (rest.map OrderRequest.price).Chain' (· < ·) := by
        have := hinc.tail
        simpa using this
      have := ih hn2 hinc2 (add_order fstr StoreFault.ok rows r).2 j ha hb
      refine ⟨this.1, ?_⟩
      rw [runCreates]
      rw [List.getElem?_cons_succ]
      exact this.2

/-- C3 witness: two concrete creates for `Widget` at prices `1` then `2`
on an empty store. -/
theorem c3_witness :
    0 < exReqB.price - exReqA.price
    ∧ (runCreates constStr [exReqA, exReqB] [])[0 + 1]? =
        some (AddResult.ok { message := "Order added successfully",
                             latest_price_change := constStr (exReqB.price - exReqA.price) }) :=
  c3_strictly_increasing constStr [exReqA, exReqB] "Widget"
    (by decide) (List.chain'_pair.mpr (by decide)) [] 0 exReqA exReqB rfl rfl

/-- C4 (confirmed): two create requests identical except that their product
names normalize alike (same after stripping surrounding whitespace and
lowering case) get the same `latest_price_change`, over any store snapshot
and fault. -/
theorem c4_normalized_name (fstr : ℚ → String) (fault : StoreFault) (rows : List RawRow)
    (order : OrderRequest) (s : String) (h : pyNorm s = pyNorm order.product_name) :
    lpcOf (add_order fstr fault rows { order with product_name := s }).1 =
      lpcOf (add_order fstr fault rows order).1 := by
  cases fault with
  | fetchErr m => rfl
  | appendErr m => rfl
  | ok =>
    have hprev : previousPrice s rows = previousPrice order.product_name rows := by
      unfold previousPrice
      congr 1
      funext acc row
      simp [prevStep, rowMatches, h]
    simp [add_order, lpcOf, hprev]

/-- C4 witness: `" wIdGeT "` and `"Widget"` get the same answer on a store
holding one `Widget` row. -/
theorem c4_witness :
    lpcOf (add_order constStr StoreFault.ok [exRowA]
        { exReq with product_name := " wIdGeT " }).1 =
      lpcOf (add_order constStr StoreFault.ok [exRowA] exReq).1 :=
  c4_normalized_name constStr StoreFault.ok [exRowA] exReq " wIdGeT " (by decide)

/-- Accumulating the validated rows equals appending their `filterMap`. -/
theorem foldl_orders_eq_filterMap (fstr : ℚ → String) (rows : List RawRow)
    (acc : List OrderHistoryItem) :
    rows.foldl
      (fun acc row =>
        match validateItem (coerceLpc fstr row) with
        | some item => acc ++ [item]
        | none => acc) acc
    = acc ++ rows.filterMap (fun row => validateItem (coerceLpc fstr row)) := by
  induction rows generalizing acc with
  | nil => simp
  | cons r rest ih =>
    rw [List.foldl_cons, ih, List.filterMap_cons]
    cases validateItem (coerceLpc fstr r) <;> simp

/-- C5 (confirmed): with the store reachable, `get_order_history` always
answers `ok`, carrying exactly the rows that validate, in iteration order;
rows that fail validation are dropped.  On an empty store the answer is the
empty list. -/
theorem c5_list_orders (fstr : ℚ → String) (rows : List RawRow) :
    (get_order_history fstr none rows).1 =
      HistResult.ok (rows.filterMap (fun row => validateItem (coerceLpc fstr row)))
    ∧ (get_order_history fstr none ([] : List RawRow)).1 = HistResult.ok [] := by
  constructor
  · simp [get_order_history, foldl_orders_eq_filterMap]
  · rfl

/-- C6 (confirmed): when the store access raises with message `m`, both
operations answer a 500 body whose detail is exactly
`"Error accessing Google Sheet: "` followed by `m` unsanitized, and the
listing carries no orders. -/
theorem c6_store_error (fstr : ℚ → String) (rows : List RawRow) (order : OrderRequest)
    (m : String) :
    (add_order fstr (StoreFault.fetchErr m) rows order).1 =
        AddResult.err500 ("Error accessing Google Sheet: " ++ m)
    ∧ (add_order fstr (StoreFault.appendErr m) rows order).1 =
        AddResult.err500 ("Error accessing Google Sheet: " ++ m)
    ∧ (get_order_history fstr (some m) rows).1 =
        HistResult.err500 ("Error accessing Google Sheet: " ++ m)
    ∧ ∀ os, (get_order_history fstr (some m) rows).1 ≠ HistResult.ok os :=
  ⟨rfl, rfl, rfl, fun _ h => HistResult.noConfusion h⟩

/-- C7 (confirmed): the ledger is append-only.  Listing never changes it; a
successful create appends exactly one row at the end; a create that fails
on fetch or on append leaves it unchanged. -/
theorem c7_append_only (fstr : ℚ → String) (rows : List RawRow) (order : OrderRequest)
    (fetchFault : Option String) :
    (get_order_history fstr fetchFault rows).2 = rows
    ∧ (∃ row, (add_order fstr StoreFault.ok rows order).2 = rows ++ [row])
    ∧ (∀ m, (add_order fstr (StoreFault.fetchErr m) rows order).2 = rows)
    ∧ (∀ m, (add_order fstr (StoreFault.appendErr m) rows order).2 = rows) := by
  refine ⟨?_, ⟨_, rfl⟩, fun m => rfl, fun m => rfl⟩
  cases fetchFault <;> rfl

/-- C8 (confirmed): on every input the two copies compute the same
`latest_price_change`, leave the store in the same state (in particular
they append the same row), and on store failure answer the same 500 body;
the backup's success body differs only by echoing the submitted fields. -/
theorem c8_backup_agrees (fstr : ℚ → String) (rows : List RawRow) (order : OrderRequest) :
    (∃ lpc,
      (add_order fstr StoreFault.ok rows order).1 =
        AddResult.ok { message := "Order added successfully", latest_price_change := lpc }
      ∧ (add_order_backup fstr StoreFault.ok rows order).1 =
        AddResultB.ok { message := "Order added successfully",
                        product_name := order.product_name, supplier := order.supplier,
                        price := order.price, quantity := order.quantity,
                        purchase_date := order.purchase_date,
                        staff_in_charge := order.staff_in_charge,
                        approver := order.approver, latest_price_change := lpc })
    ∧ (∀ fault, (add_order fstr fault rows order).2 =
        (add_order_backup fstr fault rows order).2)
    ∧ (∀ m, (add_order fstr (StoreFault.fetchErr m) rows order).1 =
          AddResult.err500 ("Error accessing Google Sheet: " ++ m)
        ∧ (add_order_backup fstr (StoreFault.fetchErr m) rows order).1 =
          AddResultB.err500 ("Error accessing Google Sheet: " ++ m))
    ∧ (∀ m, (add_order fstr (StoreFault.appendErr m) rows order).1 =
          AddResult.err500 ("Error accessing Google Sheet: " ++ m)
        ∧ (add_order_backup fstr (StoreFault.appendErr m) rows order).1 =
          AddResultB.err500 ("Error accessing Google Sheet: " ++ m)) := by
  refine ⟨⟨_, rfl, rfl⟩, fun fault => ?_, fun m => ⟨rfl, rfl⟩, fun m => ⟨rfl, rfl⟩⟩
  cases fault <;> rfl

/-- C9 (confirmed): the `latest_price_change` echoed by a successful create
is the very string written as the eighth and last element of the appended
row, in both copies. -/
theorem c9_lpc_written (fstr : ℚ → String) (rows : List RawRow) (order : OrderRequest) :
    ∃ lpc,
      (add_order fstr StoreFault.ok rows order).1 =
        AddResult.ok { message := "Order added successfully", latest_price_change := lpc }
      ∧ (add_order fstr StoreFault.ok rows order).2 =
          rows ++ [recordOfPayload (appendPayload order lpc)]
      ∧ (appendPayload order lpc).length = 8
      ∧ (appendPayload order lpc)[7]? = some (Cell.str lpc)
      ∧ (add_order_backup fstr StoreFault.ok rows order).2 =
          rows ++ [recordOfPayload (appendPayload order lpc)] :=
  ⟨_, rfl, rfl, rfl, rfl, rfl⟩

/-- C10 (confirmed): a matching fetched row with no price field at all is
read as `float(0) = 0`, not skipped; when it is the last matching row the
delta is the submitted price minus `0`, so a nonzero submitted price is
rendered as is. -/
theorem c10_missing_price_field (fstr : ℚ → String) (rows : List RawRow) (row : RawRow)
    (order : OrderRequest) (hm : rowMatches order.product_name row = true)
    (hp : row.price = none) (hnz : order.price ≠ 0) :
    previousPrice order.product_name (rows ++ [row]) = some 0
    ∧ (add_order fstr StoreFault.ok (rows ++ [row]) order).1 =
        AddResult.ok { message := "Order added successfully",
                       latest_price_change := fstr order.price } := by
  have h0 : previousPrice order.product_name (rows ++ [row]) = some 0 := by
    rw [previousPrice_snoc, if_pos hm, hp]
    rfl
  refine ⟨h0, ?_⟩
  have hres := add_order_delta fstr (rows ++ [row]) order 0 h0 hnz
  simpa using hres

/-- C10 witness: a store whose only row is a `Widget` row without a price
field, and the concrete request for `Widget` at `15`. -/
theorem c10_witness :
    previousPrice exReq.product_name ([] ++ [exRowNoPrice]) = some 0
    ∧ (add_order constStr StoreFault.ok ([] ++ [exRowNoPrice]) exReq).1 =
        AddResult.ok { message := "Order added successfully",
                       latest_price_change := constStr exReq.price } :=
  c10_missing_price_field constStr [] exRowNoPrice exReq (by decide) rfl (by decide)
